import Mathlib

/-!
Shallow embedding of the prize-giveaway bot (`main.py`): the winners / admins /
lottery tables kept by the relational store, the per-user conversation state,
and the message handlers that the verified claims are about.  Database tables
are modelled as lists of rows (insertion-ordered, as the `ORDER BY ... id` /
`joined_at` read paths expose them); Python dicts are modelled as association
lists; the messaging transport and the group-membership lookup are oracles
passed in as parameters.  A Python function that can raise an uncaught
exception returns an `Option`, with `none` for the raise.
-/

/-- Row of the `winners` table (`init_db`): `id SERIAL`, `product_name`,
`handle`, nullable `phone_number`, and a unique index on
`(product_name, handle)`. -/
structure WinnerRec where
  product_name : String
  handle : String
  phone_number : Option String
  deriving Repr, DecidableEq

abbrev WinnerStore := List WinnerRec

/-- Row of the `lotteries` table (`init_db`): `chat_id BIGINT PRIMARY KEY`,
`duration_minutes`, `winner_count`, `required_groups`, `state` (defaults to
`"ACTIVE"`), `message_id`.  The counts are written only from `int(...)` of
strings that passed `isdigit()`, hence `Nat`. -/
structure LotteryRow where
  chat_id : Int
  duration_minutes : Nat
  winner_count : Nat
  required_groups : String
  state : String
  message_id : Int
  deriving Repr, DecidableEq

/-- Row of the `lottery_participants` table: primary key `(chat_id, user_id)`.
`username` is non-null on every insert path (`/join` rejects users without a
username), so it is a plain `String`. -/
structure ParticipantRow where
  chat_id : Int
  user_id : Int
  username : String
  deriving Repr, DecidableEq

/-- One `admin_states[uid]` dict.  Python stores only the keys each workflow
uses; absent keys are `none` / `[]` here.  `stype` is the dict's `"type"` key
(the name used for it inside `text_handler`). -/
structure AdminState where
  stype : String
  step : String
  product_name : Option String
  handle : Option String
  new_product_name : Option String
  groups : List String
  deriving Repr, DecidableEq

/-- The process-wide mutable state of the bot: the four tables, the
`ADMIN_IDS` / `ENV_ADMIN_IDS` id lists, the `BOT_ACTIVE` flag, the
`admin_config` table and the two per-user dicts. -/
structure BotState where
  winners : WinnerStore
  lotteries : List LotteryRow
  participants : List ParticipantRow
  admin_ids : List Int
  env_admin_ids : List Int
  bot_active : Bool
  admin_config : List (Int × String)
  pending_phone_users : List (Int × String)
  admin_states : List (Int × AdminState)
  deriving Repr, DecidableEq

/-- Python dict lookup `m.get(k)`. -/
def assocGet {κ α : Type} [DecidableEq κ] (k : κ) (m : List (κ × α)) : Option α :=
  (m.find? (fun e => decide (e.1 = k))).map (fun e => e.2)

/-- Python dict assignment `m[k] = v`: replaces in place, else appends. -/
def assocSet {κ α : Type} [DecidableEq κ] (k : κ) (v : α) : List (κ × α) → List (κ × α)
  | [] => [(k, v)]
  | e :: rest => if e.1 = k then (k, v) :: rest else e :: assocSet k v rest

/-- Python dict removal `m.pop(k, None)`. -/
def assocPop {κ α : Type} [DecidableEq κ] (k : κ) (m : List (κ × α)) : List (κ × α) :=
  m.filter (fun e => !decide (e.1 = k))

/-! Python string primitives, re-implemented structurally over the char list
so that concrete runs reduce inside the kernel.  Whitespace and case mapping
are ASCII (handles are ASCII Telegram usernames). -/

/-- Python `str.strip()`. -/
def pyStrip (s : String) : String :=
  String.mk (((s.data.dropWhile Char.isWhitespace).reverse.dropWhile Char.isWhitespace).reverse)

/-- Python `str.lower()` (also SQL `LOWER`). -/
def pyLower (s : String) : String := String.mk (s.data.map Char.toLower)

/-- Python `str.startswith(c)` for a one-character prefix. -/
def pyStartsWithChar (s : String) (c : Char) : Bool :=
  match s.data with
  | c' :: _ => c' = c
  | [] => false

/-- Helper for `pySplitChar`. -/
def splitCharAux (c : Char) : List Char → List Char → List String
  | [], acc => [String.mk acc.reverse]
  | x :: xs, acc =>
    if x = c then String.mk acc.reverse :: splitCharAux c xs []
    else splitCharAux c xs (x :: acc)

/-- Python `str.split(c)` for a one-character separator (also `splitlines()`,
whose boundary is modelled as `\n`; the callers filter out empty pieces, on
which the two agree). -/
def pySplitChar (c : Char) (s : String) : List String := splitCharAux c s.data []

/-- `args[i].isdigit()` guard followed by `int(args[i])`. -/
def pyToNat (s : String) : Option Nat :=
  if s.data ≠ [] ∧ s.data.all Char.isDigit then
    some (s.data.foldl (fun n c => n * 10 + (c.toNat - 48)) 0)
  else none

/-- Python `str.replace(a, b)` for one-character pattern and replacement. -/
def pyReplaceChar (a b : Char) (s : String) : String :=
  String.mk (s.data.map (fun c => if c = a then b else c))

/-- Case-insensitive handle comparison, as the SQL
`LOWER(handle) = LOWER(%s)` predicates do. -/
def lowerEq (a b : String) : Bool := pyLower a = pyLower b

/-- `is_admin(uid)`: union of the DB-loaded `ADMIN_IDS` and the env
`ENV_ADMIN_IDS`. -/
def is_admin (st : BotState) (uid : Int) : Bool :=
  st.admin_ids.contains uid || st.env_admin_ids.contains uid

/-- `is_user_blocked(uid)`: bot switched off and uid in neither admin list. -/
def is_user_blocked (st : BotState) (uid : Int) : Bool :=
  !st.bot_active && !st.admin_ids.contains uid && !st.env_admin_ids.contains uid

/-! ## Phone validation

`PHONE_PATTERN = re.compile(r"^01[016789]-\d{3,4}-\d{4}$")` used through
`PHONE_PATTERN.match(text)`.  `\d` is modelled as an ASCII digit; a `$` in a
Python pattern also matches just before a single trailing newline. -/

/-- End of the pattern: end of string, or a lone trailing newline (`$`). -/
def phoneEnd : List Char → Bool
  | [] => true
  | ['\n'] => true
  | _ => false

/-- `\d{4}$`. -/
def phoneLast4 : List Char → Bool
  | a :: b :: c :: d :: rest =>
      a.isDigit && b.isDigit && c.isDigit && d.isDigit && phoneEnd rest
  | _ => false

/-- `\d{3,4}-\d{4}$`: three digits, then either the dash directly or one more
digit and the dash.  The two alternatives are mutually exclusive (a char is
never both `-` and a digit), so this matches the backtracking regex. -/
def phoneMiddle : List Char → Bool
  | a :: b :: c :: rest =>
      a.isDigit && b.isDigit && c.isDigit &&
        (match rest with
         | '-' :: t => phoneLast4 t
         | d :: '-' :: t => d.isDigit && phoneLast4 t
         | _ => false)
  | _ => false

/-- `is_valid_phone(text)`. -/
def is_valid_phone (s : String) : Bool :=
  match s.data with
  | '0' :: '1' :: c :: '-' :: rest =>
      (c = '0' || c = '1' || c = '6' || c = '7' || c = '8' || c = '9') && phoneMiddle rest
  | _ => false

/-! ## Winner store operations -/

/-- `INSERT INTO winners (product_name, handle) VALUES (...) ON CONFLICT
(product_name, handle) DO NOTHING`.  The unique index compares the stored
strings exactly (case-sensitively). -/
def insertWinnerRow (product_name handle : String) (s : WinnerStore) : WinnerStore :=
  if s.any (fun r => r.product_name = product_name && r.handle = handle) then s
  else s ++ [{ product_name := product_name, handle := handle, phone_number := none }]

/-- `add_winners(product_name, handles)`: per handle — strip, skip when empty,
prepend `"@"` when missing, insert with conflict-ignore.  (No lower-casing
happens on this write path.) -/
def add_winners (product_name : String) (handles : List String) (s : WinnerStore) : WinnerStore :=
  handles.foldl
    (fun s handle =>
      let h := pyStrip handle
      if h = "" then s
      else insertWinnerRow product_name (if pyStartsWithChar h '@' then h else "@" ++ h) s)
    s

/-- `delete_product_winners(product_name)`: runs the DELETE and falls off the
end of the function body, so its Python return value is `None` (first
component `none`); no row count is produced. -/
def delete_product_winners (product_name : String) (s : WinnerStore) : Option Nat × WinnerStore :=
  (none, s.filter (fun r => !decide (r.product_name = product_name)))

/-- `delete_winners_by_product_and_handles(product_name, handles)`: per raw
handle — strip, skip when empty, `"@"`-prefix, DELETE the case-insensitive
`(product, handle)` matches and record the row count under the raw handle. -/
def delete_winners_by_product_and_handles (product_name : String) (handles : List String)
    (s : WinnerStore) : List (String × Nat) × WinnerStore :=
  handles.foldl
    (fun acc raw =>
      let h := pyStrip raw
      if h = "" then acc
      else
        let h := if pyStartsWithChar h '@' then h else "@" ++ h
        let hit := fun (r : WinnerRec) => r.product_name = product_name && lowerEq r.handle h
        (assocSet raw (acc.2.filter hit).length acc.1, acc.2.filter (fun r => !hit r)))
    ([], s)

/-- `clear_product_phones(product_name)`: null out phones for one product. -/
def clear_product_phones (product_name : String) (s : WinnerStore) : WinnerStore :=
  s.map (fun r => if r.product_name = product_name then { r with phone_number := none } else r)

/-- `update_phone_for_handle(handle, phone_number)`: `"@"`-prefix the handle
when needed, then set the phone on every case-insensitive handle match. -/
def update_phone_for_handle (handle phone_number : String) (s : WinnerStore) : WinnerStore :=
  let h := if pyStartsWithChar handle '@' then handle else "@" ++ handle
  s.map (fun r => if lowerEq r.handle h then { r with phone_number := some phone_number } else r)

/-- `change_product_name_for_handle(handle, new_product_name)`: when the
`(new_product_name, handle)` pair already exists return `False` without
touching the store; otherwise UPDATE every case-insensitive handle match to
the new product name and return `rowcount > 0`. -/
def change_product_name_for_handle (handle new_product_name : String) (s : WinnerStore) :
    Bool × WinnerStore :=
  let h := if pyStartsWithChar handle '@' then handle else "@" ++ handle
  if s.any (fun r => r.product_name = new_product_name && lowerEq r.handle h) then (false, s)
  else
    ((s.filter (fun r => lowerEq r.handle h)).length != 0,
     s.map (fun r => if lowerEq r.handle h then { r with product_name := new_product_name } else r))

/-! ## Admin config and lottery store operations -/

def GLOBAL_CONFIG_USER_ID : Int := 0

/-- `get_admin_required_groups(user_id)`: the global row (`user_id = 0`) wins
when present and non-empty, else fall back to the caller's own row, else
`""`.  A NULL column is modelled as `""` (both are falsy in the source). -/
def get_admin_required_groups (user_id : Int) (cfg : List (Int × String)) : String :=
  match assocGet GLOBAL_CONFIG_USER_ID cfg with
  | some g =>
      if g ≠ "" then g
      else match assocGet user_id cfg with
           | some g2 => if g2 ≠ "" then g2 else ""
           | none => ""
  | none =>
      match assocGet user_id cfg with
      | some g2 => if g2 ≠ "" then g2 else ""
      | none => ""

/-- `set_admin_required_groups(user_id, groups_str)`: upsert of the global
(`user_id = 0`) row; the calling admin's id is ignored. -/
def set_admin_required_groups (_user_id : Int) (groups_str : String)
    (cfg : List (Int × String)) : List (Int × String) :=
  assocSet GLOBAL_CONFIG_USER_ID groups_str cfg

/-- `get_current_lottery(chat_id)`: the `state = 'ACTIVE'` row for the chat. -/
def get_current_lottery (chat_id : Int) (db : List LotteryRow) : Option LotteryRow :=
  db.find? (fun r => r.chat_id = chat_id && r.state = "ACTIVE")

/-- `start_new_lottery(...)`: returns `False` when an ACTIVE session exists;
otherwise INSERTs a fresh row (state defaults to `"ACTIVE"`).  The INSERT has
no ON CONFLICT clause and `chat_id` is the table's PRIMARY KEY, so inserting
while ANY row for this `chat_id` is present — e.g. an ENDED one — raises an
uncaught `IntegrityError`, modelled as `none`. -/
def start_new_lottery (chat_id : Int) (duration winner_count : Nat)
    (required_groups : String) (message_id : Int) (db : List LotteryRow) :
    Option (Bool × List LotteryRow) :=
  if (get_current_lottery chat_id db).isSome then some (false, db)
  else if db.any (fun r => r.chat_id = chat_id) then none
  else
    let row : LotteryRow :=
      { chat_id := chat_id, duration_minutes := duration, winner_count := winner_count,
        required_groups := required_groups, state := "ACTIVE", message_id := message_id }
    some (true, db ++ [row])

/-- `end_lottery(chat_id)`: UPDATE the chat's ACTIVE row to ENDED. -/
def end_lottery (chat_id : Int) (db : List LotteryRow) : List LotteryRow :=
  db.map (fun r =>
    if r.chat_id = chat_id && r.state = "ACTIVE" then { r with state := "ENDED" } else r)

/-- `add_participant(chat_id, user_id, username)`: plain INSERT against the
`(chat_id, user_id)` primary key; the `IntegrityError` on a duplicate pair is
caught and turned into `False`. -/
def add_participant (chat_id user_id : Int) (username : String)
    (ps : List ParticipantRow) : Bool × List ParticipantRow :=
  if ps.any (fun r => r.chat_id = chat_id && r.user_id = user_id) then (false, ps)
  else (true, ps ++ [{ chat_id := chat_id, user_id := user_id, username := username }])

/-- `get_participants(chat_id)`, ordered by `joined_at` (list order). -/
def get_participants (chat_id : Int) (ps : List ParticipantRow) : List ParticipantRow :=
  ps.filter (fun r => decide (r.chat_id = chat_id))

/-- `clear_participants(chat_id)`. -/
def clear_participants (chat_id : Int) (ps : List ParticipantRow) : List ParticipantRow :=
  ps.filter (fun r => !decide (r.chat_id = chat_id))

/-! ## `random.sample` -/

/-- `random.sample(l, k)` modelled as selection sampling: an oracle `pick`
supplies the random choice at each step; the chosen element is removed before
the next draw (sampling without replacement).  The `none` branch is
unreachable while `k ≤ l.length`. -/
def sampleAux {α : Type} (pick : Nat → Nat) : Nat → Nat → List α → List α
  | _, 0, _ => []
  | step, k + 1, l =>
    match l[pick step % l.length]? with
    | none => []
    | some x => x :: sampleAux pick (step + 1) k (l.eraseIdx (pick step % l.length))

def random_sample {α : Type} (l : List α) (k : Nat) (pick : Nat → Nat) : List α :=
  sampleAux pick 0 k l

/-! ## Command handlers

Each handler takes the message's sender id, chat id, chat type (`"private"`,
`"group"`, `"supergroup"`), parsed `get_args()` list where used, and the
current `BotState`; it returns the list of replies it sends plus the new
state.  `args[i].isdigit()` followed by `int(args[i])` is `pyToNat`. -/

/-- `winner_count = default; if args and args[i].isdigit(): winner_count = int(args[i])`:
optional numeric argument with a default. -/
def parseArgNat (a : Option String) (dflt : Nat) : Nat :=
  match a with
  | some s => (pyToNat s).getD dflt
  | none => dflt

/-- `delete_winner_cmd`: silently ignores non-admins, otherwise seeds the
delete-winner conversation state and prompts for the product name. -/
def delete_winner_cmd (uid : Int) (st : BotState) : List String × BotState :=
  if !is_admin st uid then ([], st)
  else
    let state0 : AdminState :=
      { stype := "delete_winner", step := "product_name", product_name := none,
        handle := none, new_product_name := none, groups := [] }
    (["삭제할 상품명을 입력하세요."],
     { st with admin_states := assocSet uid state0 st.admin_states })

/-- `lottery_start_cmd` (`/lottery`).  `sent_message_id` is the id of the
bot's own announcement message (written back into the row afterwards) and
`end_time_str` the wall-clock text `end_time.strftime('%H:%M')`, both
external inputs.  `none` models the uncaught `IntegrityError` escaping from
`start_new_lottery`. -/
def lottery_start_cmd (uid chat_id : Int) (chat_type : String) (args : List String)
    (message_id sent_message_id : Int) (end_time_str : String) (st : BotState) :
    Option (List String × BotState) :=
  if !is_admin st uid then
    some (["⚠️ 이 명령어는 관리자만 사용할 수 있습니다."], st)
  else if !(chat_type = "group" || chat_type = "supergroup") then
    some (["⚠️ 이 명령어는 그룹 채팅에서만 사용할 수 있습니다."], st)
  else if (get_current_lottery chat_id st.lotteries).isSome then
    some (["⚠️ 이 채팅방에는 이미 추첨이 진행 중입니다."], st)
  else
    let duration_min := parseArgNat args[0]? 0
    let winner_count := parseArgNat args[1]? 1
    let required_groups := get_admin_required_groups uid st.admin_config
    if required_groups = "" then
      some (["⚠️ 필수 그룹 설정이 없습니다.\n관리자 계정으로 봇과 DM 을 열고 /set_groups 를 먼저 설정해주세요."], st)
    else
      match start_new_lottery chat_id duration_min winner_count required_groups message_id
          st.lotteries with
      | none => none
      | some (false, db) => some (["⚠️ 추첨 시작 중 오류가 발생했습니다."], { st with lotteries := db })
      | some (true, db) =>
        let time_text := if duration_min > 0 then
            "⏳ " ++ toString duration_min ++ "분 동안 진행됩니다. (예상 종료: " ++ end_time_str ++ ")"
          else "⏳ 관리자가 /lottery_end 로 종료할 때까지 진행됩니다."
        let winner_text := if winner_count > 0 then
            "\n🎁 총 " ++ toString winner_count ++ "명 당첨 예정"
          else ""
        let group_text :=
          "\n\n🚨 참여 조건: 사전에 설정된 필수 그룹(채널/커뮤니티)에 모두 가입한 경우에만 당첨이 유효합니다."
        let final_text := "🎉 새로운 추첨이 시작되었습니다! 🎉\n\n" ++ time_text ++ winner_text
          ++ group_text ++ "\n\n참여하려면 /join 을 입력해주세요."
        let db := db.map (fun r =>
          if r.chat_id = chat_id then { r with message_id := sent_message_id } else r)
        some ([final_text], { st with lotteries := db })

/-- `lottery_end_cmd` (`/lottery_end`): middle component is the drawn
winner list (the rows whose handles appear in the reply). -/
def lottery_end_cmd (uid chat_id : Int) (chat_type : String) (args : List String)
    (pick : Nat → Nat) (st : BotState) : List String × List ParticipantRow × BotState :=
  if !is_admin st uid || !(chat_type = "group" || chat_type = "supergroup") then ([], [], st)
  else
    match get_current_lottery chat_id st.lotteries with
    | none => (["⚠️ 현재 진행 중인 추첨이 없습니다."], [], st)
    | some lot =>
      let winner_count := parseArgNat args[0]? lot.winner_count
      let participants := get_participants chat_id st.participants
      if participants.isEmpty then
        (["😥 참가자가 없습니다. 추첨을 종료합니다."], [],
         { st with lotteries := end_lottery chat_id st.lotteries,
                   participants := clear_participants chat_id st.participants })
      else
        let wc := if winner_count > participants.length then participants.length else winner_count
        let winners := random_sample participants wc pick
        let winner_handles := winners.map (fun w =>
          if w.username ≠ "" then "@" ++ w.username else "ID:" ++ toString w.user_id)
        let result_text := "🎉 추첨 종료! 당첨자를 발표합니다! 🎉\n\n총 참가자: "
          ++ toString participants.length ++ "명\n당첨 인원: " ++ toString wc
          ++ "명\n\n👑 당첨자 목록:\n"
          ++ String.join (winner_handles.map (fun h => "- " ++ h ++ "\n"))
          ++ "\n✅ 당첨자께서는 개인 DM으로 /submit_winner 명령을 사용해주세요!"
        ([result_text], winners,
         { st with lotteries := end_lottery chat_id st.lotteries,
                   participants := clear_participants chat_id st.participants })

/-- `lottery_join_cmd` (`/join`).  `username` is the sender's optional public
handle (`None` or `""` both count as missing, Python truthiness); `memberOf`
is the oracle for the external `is_user_member_of_group` lookup for this
user (a failed lookup is already `false` there). -/
def lottery_join_cmd (uid : Int) (username : Option String) (chat_id : Int)
    (chat_type : String) (memberOf : String → Bool) (st : BotState) :
    List String × BotState :=
  if is_user_blocked st uid || !(chat_type = "group" || chat_type = "supergroup") then ([], st)
  else
    match get_current_lottery chat_id st.lotteries with
    | none => (["⚠️ 현재 이 채팅방에서 진행 중인 추첨이 없습니다."], st)
    | some lot =>
      if username.getD "" = "" then
        (["⚠️ 참여하려면 텔레그램 유저네임(@username)을 설정해야 합니다."], st)
      else
        let required_groups :=
          ((pySplitChar ',' lot.required_groups).map (fun g => pyStrip g)).filter (fun g => g ≠ "")
        let is_qualified := required_groups.all memberOf
        if !is_qualified then
          (["⚠️ 참여 조건 미달: 모든 필수 그룹에 가입해야 참여할 수 있습니다. 먼저 가입해주세요."], st)
        else
          let res := add_participant chat_id uid (username.getD "") st.participants
          if res.1 then
            (["🎉 @" ++ username.getD "" ++ " 님, 추첨에 참가했습니다!"],
             { st with participants := res.2 })
          else
            (["⚠️ 이미 추첨에 참가했습니다."], { st with participants := res.2 })

/-- `text.splitlines()` with per-line strip and empty-line filter, the list
comprehension `[h.strip() for h in text.splitlines() if h.strip()]`
(line boundaries modelled as `\n`). -/
def splitlinesStripped (t : String) : List String :=
  ((pySplitChar '\n' t).map (fun h => pyStrip h)).filter (fun h => h ≠ "")

/-- `text_handler`: the catch-all TEXT handler.  Order of business exactly as
in the source: blocked check, pending-phone branch, `admin_states` dispatch,
then the stale-state fallthrough. -/
def text_handler (uid : Int) (raw_text : String) (st : BotState) : List String × BotState :=
  let text := pyStrip raw_text
  if is_user_blocked st uid then ([], st)
  else
    match assocGet uid st.pending_phone_users with
    | some handle =>
      if !is_valid_phone text then (["형식 오류! 예: 010-1234-5678"], st)
      else
        (["전화번호가 등록되었습니다."],
         { st with pending_phone_users := assocPop uid st.pending_phone_users,
                   winners := update_phone_for_handle handle text st.winners })
    | none =>
      match assocGet uid st.admin_states with
      | none => ([], st)
      | some state =>
        if state.stype = "add_winner" && state.step = "product_name" then
          let state' := { state with product_name := some text, step := "handles" }
          (["당첨자 핸들을 한 줄에 하나씩 입력하세요.\n입력을 마치려면 /end 를 보내주세요."],
           { st with admin_states := assocSet uid state' st.admin_states })
        else if state.stype = "add_winner" && state.step = "handles" then
          if text = "/end" then
            (["등록을 완료했습니다."], { st with admin_states := assocPop uid st.admin_states })
          else
            let handles := splitlinesStripped text
            ([String.intercalate "\n" handles ++ "\n위 핸들이 추가되었습니다."],
             { st with winners := add_winners (state.product_name.getD "") handles st.winners })
        else if state.stype = "delete_product" && state.step = "product_name" then
          (["'" ++ text ++ "' 상품의 당첨자가 모두 삭제되었습니다."],
           { st with winners := (delete_product_winners text st.winners).2,
                     admin_states := assocPop uid st.admin_states })
        else if state.stype = "delete_winner" && state.step = "product_name" then
          let state' := { state with product_name := some text, step := "handles" }
          (["'" ++ text ++ "' 상품에서 삭제할 핸들을 한 줄에 하나씩 입력하세요.\n입력을 마치려면 /end 를 입력하세요."],
           { st with admin_states := assocSet uid state' st.admin_states })
        else if state.stype = "delete_winner" && state.step = "handles" then
          if pyStrip text = "/end" then
            (["삭제 작업을 종료했습니다."], { st with admin_states := assocPop uid st.admin_states })
          else
            let handles := splitlinesStripped text
            if handles.isEmpty then
              (["⚠️ 유효한 핸들이 없습니다. 다시 입력하거나 /end 로 종료할 수 있습니다."], st)
            else
              let product_name := state.product_name.getD ""
              let res := delete_winners_by_product_and_handles product_name handles st.winners
              let deleted := (res.1.filter (fun e => e.2 != 0)).map (fun e => e.1)
              let missing := (res.1.filter (fun e => e.2 == 0)).map (fun e => e.1)
              let reply_parts :=
                (if deleted.isEmpty then [] else
                  ["✅ '" ++ product_name ++ "' 상품에서 다음 핸들이 삭제되었습니다:\n"
                    ++ String.intercalate "\n" (deleted.map (fun h => "- " ++ h))]) ++
                (if missing.isEmpty then [] else
                  ["⚠️ '" ++ product_name ++ "' 상품에서 찾지 못한 핸들:\n"
                    ++ String.intercalate "\n" (missing.map (fun h => "- " ++ h))])
              let st' := { st with winners := res.2,
                                   admin_states := assocPop uid st.admin_states }
              if reply_parts.isEmpty then
                (["⚠️ 삭제된 레코드가 없습니다. 상품명과 핸들을 다시 확인해주세요."], st')
              else
                ([String.intercalate "\n\n" reply_parts], st')
        else if state.stype = "clear_phones_product" && state.step = "product_name" then
          (["'" ++ text ++ "' 상품의 전화번호가 모두 삭제되었습니다."],
           { st with winners := clear_product_phones text st.winners,
                     admin_states := assocPop uid st.admin_states })
        else if state.stype = "change_product" && state.step = "handle" then
          let state' := { state with handle := some text, step := "new_product_name" }
          (["'" ++ text ++ "' 에 대해 변경할 새로운 상품명을 입력하세요."],
           { st with admin_states := assocSet uid state' st.admin_states })
        else if state.stype = "change_product" && state.step = "new_product_name" then
          let handle := state.handle.getD ""
          let res := change_product_name_for_handle handle text st.winners
          let st' := { st with winners := res.2, admin_states := assocPop uid st.admin_states }
          if res.1 then
            (["✅ 당첨자 '" ++ handle ++ "' 의 상품명이 '" ++ text ++ "'(으)로 변경되었습니다."], st')
          else
            (["⚠️ 오류: 당첨자 '" ++ handle ++ "' 은(는) 이미 '" ++ text
              ++ "' 상품에 등록되어 있거나 핸들을 찾을 수 없습니다."], st')
        else if state.stype = "set_groups" && state.step = "groups_input" then
          let groups' := if text ≠ "/end" then state.groups ++ splitlinesStripped text
            else state.groups
          let state' := { state with groups := groups' }
          if pyLower text = "/end" || pyStartsWithChar raw_text '/' then
            let groups_str := String.intercalate "," groups'
            if groups_str = "" then
              (["❌ 필수 그룹 목록이 비어 있습니다. 취소하려면 /cancel 을 사용하세요."],
               { st with admin_states := assocSet uid state' st.admin_states })
            else
              (["✅ 전역 필수 그룹이 다음으로 설정되었습니다:\n" ++ pyReplaceChar ',' '\n' groups_str],
               { st with admin_config := set_admin_required_groups uid groups_str st.admin_config,
                         admin_states := assocPop uid st.admin_states })
          else
            (["계속 입력하거나, 완료하려면 /end 를 보내주세요."],
             { st with admin_states := assocSet uid state' st.admin_states })
        else
          if pyStartsWithChar text '/' &&
              !(["/start", "/form", "/list_winners", "/submit_winner", "/join", "/help"].contains text) then
            ([], { st with admin_states := assocPop uid st.admin_states })
          else ([], st)

/-! ## Lemmas about the sampling model -/

theorem length_sampleAux {α : Type} (pick : Nat → Nat) (k : Nat) :
    ∀ (step : Nat) (l : List α), k ≤ l.length → (sampleAux pick step k l).length = k := by
  induction k with
  | zero => intro step l _; rfl
  | succ k ih =>
    intro step l hk
    have hlen : 0 < l.length := lt_of_lt_of_le (Nat.succ_pos k) hk
    have hidx : pick step % l.length < l.length := Nat.mod_lt _ hlen
    rw [sampleAux, List.getElem?_eq_getElem hidx]
    simp only [List.length_cons]
    rw [ih (step + 1) (l.eraseIdx (pick step % l.length))]
    rw [List.length_eraseIdx]
    simp only [hidx, if_pos]
    omega

theorem mem_sampleAux {α : Type} (pick : Nat → Nat) (k : Nat) :
    ∀ (step : Nat) (l : List α) (x : α), x ∈ sampleAux pick step k l → x ∈ l := by
  induction k with
  | zero => intro step l x h; simp [sampleAux] at h
  | succ k ih =>
    intro step l x h
    rw [sampleAux] at h
    cases hg : l[pick step % l.length]? with
    | none => rw [hg] at h; simp at h
    | some y =>
      rw [hg] at h
      rcases List.mem_cons.mp h with rfl | htail
      · obtain ⟨hlt, hey⟩ := List.getElem?_eq_some.mp hg
        exact hey ▸ List.getElem_mem hlt
      · exact (List.eraseIdx_sublist l (pick step % l.length)).subset (ih _ _ _ htail)

theorem nodup_sampleAux {α : Type} (pick : Nat → Nat) (k : Nat) :
    ∀ (step : Nat) (l : List α), l.Nodup → (sampleAux pick step k l).Nodup := by
  induction k with
  | zero => intro step l _; simp [sampleAux]
  | succ k ih =>
    intro step l hnd
    rw [sampleAux]
    cases hg : l[pick step % l.length]? with
    | none => simp
    | some y =>
      refine List.nodup_cons.mpr ⟨?_, ih _ _ ((List.eraseIdx_sublist l _).nodup hnd)⟩
      intro hy
      have hmem : y ∈ l.eraseIdx (pick step % l.length) := mem_sampleAux pick k _ _ _ hy
      obtain ⟨i, hi, hne, hig⟩ := List.mem_eraseIdx_iff_getElem.mp hmem
      obtain ⟨hlt, hey⟩ := List.getElem?_eq_some.mp hg
      have : l[i] = l[pick step % l.length] := by rw [hig, hey]
      exact hne ((List.Nodup.getElem_inj_iff hnd).mp this)

/-! ## Key counting for the winners unique index -/

/-- Number of stored records carrying exactly this `(product_name, handle)`
key (the unique-index key). -/
def countKey (product_name handle : String) (s : WinnerStore) : Nat :=
  (s.filter (fun r => r.product_name = product_name && r.handle = handle)).length

theorem countKey_insertWinnerRow_self (p h : String) (s : WinnerStore)
    (hle : countKey p h s ≤ 1) : countKey p h (insertWinnerRow p h s) = 1 := by
  unfold insertWinnerRow
  by_cases hex : s.any (fun r => r.product_name = p && r.handle = h) = true
  · rw [if_pos hex]
    obtain ⟨x, hx, hpx⟩ := List.any_eq_true.mp hex
    have hmem : x ∈ s.filter (fun r => r.product_name = p && r.handle = h) :=
      List.mem_filter.mpr ⟨hx, hpx⟩
    have hpos : 0 < countKey p h s := List.length_pos.mpr (List.ne_nil_of_mem hmem)
    omega
  · rw [if_neg hex]
    have hz : countKey p h s = 0 := by
      unfold countKey
      rw [List.length_eq_zero]
      refine List.filter_eq_nil_iff.mpr ?_
      intro a ha hpa
      exact hex (List.any_eq_true.mpr ⟨a, ha, hpa⟩)
    unfold countKey at hz ⊢
    rw [List.filter_append, List.length_append, hz]
    simp

/-- The normalization the code's write path (`add_winners`) actually applies:
strip whitespace and prepend `"@"` when missing (no lower-casing). -/
def codeNormalizeHandle (h : String) : String :=
  let t := pyStrip h
  if pyStartsWithChar t '@' then t else "@" ++ t

/-- Normalization as the spec words it: strip whitespace, strip one leading
`"@"`, lower-case, re-prefix with `"@"`.  Written from the spec, for
comparison against the code's behaviour. -/
def specNormalizeHandle (h : String) : String :=
  let t := pyStrip h
  let t := if pyStartsWithChar t '@' then String.mk (t.data.drop 1) else t
  "@" ++ pyLower t

theorem add_winners_singleton (p h : String) (s : WinnerStore) (hne : pyStrip h ≠ "") :
    add_winners p [h] s = insertWinnerRow p (codeNormalizeHandle h) s := by
  unfold add_winners codeNormalizeHandle
  simp [hne]

/-- Claim C1 (counterexample): `"@FooBar "` and `"foobar"` normalize to the
same handle by the spec's rule (`"@foobar"`), yet adding both under one
product leaves TWO stored records — `add_winners` never lower-cases, so the
records are keyed `"@FooBar"` and `"@foobar"`. -/
theorem claim1_counterexample :
    specNormalizeHandle "@FooBar " = specNormalizeHandle "foobar" ∧
    (add_winners "P" ["foobar"] (add_winners "P" ["@FooBar "] [])).length = 2 := by
  constructor
  · rfl
  · rfl

/-- Claim C1 (amended): the write-path normalization is strip-whitespace plus
`"@"`-prefix only (no lower-casing).  For any two inputs that agree under
THAT normalization, upserting both under one product leaves exactly one
record with the normalized key, provided the store respected the unique
index beforehand. -/
theorem claim1_amended (p h1 h2 : String) (s : WinnerStore)
    (h1ne : pyStrip h1 ≠ "") (h2ne : pyStrip h2 ≠ "")
    (heq : codeNormalizeHandle h1 = codeNormalizeHandle h2)
    (hs : countKey p (codeNormalizeHandle h1) s ≤ 1) :
    countKey p (codeNormalizeHandle h1)
      (add_winners p [h2] (add_winners p [h1] s)) = 1 := by
  rw [add_winners_singleton p h1 s h1ne, add_winners_singleton p h2 _ h2ne, ← heq]
  have h1' : countKey p (codeNormalizeHandle h1) (insertWinnerRow p (codeNormalizeHandle h1) s) = 1 :=
    countKey_insertWinnerRow_self _ _ _ hs
  exact countKey_insertWinnerRow_self _ _ _ (le_of_eq h1')

/-- Witness for `claim1_amended` at `h1 = "@foo "`, `h2 = "foo"`, empty store. -/
theorem claim1_witness :
    pyStrip "@foo " ≠ "" ∧ pyStrip "foo" ≠ "" ∧
    codeNormalizeHandle "@foo " = codeNormalizeHandle "foo" ∧
    countKey "P" (codeNormalizeHandle "@foo ") [] ≤ 1 ∧
    countKey "P" (codeNormalizeHandle "@foo ")
      (add_winners "P" ["foo"] (add_winners "P" ["@foo "] [])) = 1 :=
  ⟨by decide, by decide, by decide, by decide,
   claim1_amended "P" "@foo " "foo" [] (by decide) (by decide) (by decide) (by decide)⟩

/-- A lottery row left behind by `end_lottery`: state ENDED, row still
present because `chat_id` is the table's primary key. -/
def endedLotteryRow : LotteryRow :=
  { chat_id := 1, duration_minutes := 0, winner_count := 1,
    required_groups := "@g", state := "ENDED", message_id := 5 }

/-- Claim C2 (code bug): for a chat whose prior session reached ENDED (row
kept, participants cleared), a new `start_new_lottery` call does NOT create
an ACTIVE row and return ok — the INSERT collides with the `chat_id` PRIMARY
KEY and the uncaught `IntegrityError` (modelled `none`) escapes, although
`get_current_lottery` deliberately ignores ENDED rows and the docstring
promises `False` only while a session is in progress. -/
theorem claim2_ended_chat_restart_raises :
    start_new_lottery 1 0 1 "@g" 7 [endedLotteryRow] = none ∧
    start_new_lottery 1 0 1 "@g" 7 [] ≠ none := by
  constructor
  · rfl
  · decide

/-- Claim C3 (counterexample): on a product with no records
`delete_product_winners` does not return the count `0` — the Python function
has no return statement, so it yields `None`. -/
theorem claim3_counterexample :
    (delete_product_winners "Nope" []).1 ≠ some 0 := by
  decide

/-- Claim C3 (amended): `delete_product_winners` returns `None` (never a row
count); it removes every record of the product; and on a product with no
records it leaves the store unchanged. -/
theorem claim3_amended (p : String) (s : WinnerStore) :
    (delete_product_winners p s).1 = none ∧
    (∀ r ∈ (delete_product_winners p s).2, r.product_name ≠ p) ∧
    ((∀ r ∈ s, r.product_name ≠ p) → (delete_product_winners p s).2 = s) := by
  refine ⟨rfl, ?_, ?_⟩
  · intro r hr
    have h := (List.mem_filter.mp hr).2
    simpa using h
  · intro h
    unfold delete_product_winners
    refine List.filter_eq_self.mpr ?_
    intro a ha
    simpa using h a ha

/-- Witness for `claim3_amended` on a store holding one record of another
product. -/
theorem claim3_witness :
    (delete_product_winners "B" [⟨"A", "@x", none⟩]).1 = none ∧
    (delete_product_winners "B" [⟨"A", "@x", none⟩]).2 = [⟨"A", "@x", none⟩] :=
  ⟨(claim3_amended "B" [⟨"A", "@x", none⟩]).1,
   (claim3_amended "B" [⟨"A", "@x", none⟩]).2.2 (by decide)⟩

/-! ## Claim C4: changeProduct outcomes -/

/-- The `"@"`-prefixed form of a raw handle, as the store operations build it
before querying. -/
def atPrefixed (handle : String) : String :=
  if pyStartsWithChar handle '@' then handle else "@" ++ handle

/-- The conflict test of `change_product_name_for_handle`: some record
already carries `(new_product_name, handle)` (handle case-insensitive). -/
def conflictExists (handle new_product_name : String) (s : WinnerStore) : Bool :=
  s.any (fun r => r.product_name = new_product_name && lowerEq r.handle (atPrefixed handle))

/-- Whether any record matches the handle case-insensitively (what the
UPDATE's rowcount tests). -/
def handleHasRows (handle : String) (s : WinnerStore) : Bool :=
  s.any (fun r => lowerEq r.handle (atPrefixed handle))

/-- Claim C4 (counterexample): the conflict case (record `("A", "@x")`
present, renaming `"@x"` to `"A"`) and the not-found case (empty store)
return the same value `False` — the function exposes only two outcomes, so
conflict and notFound are NOT distinguishable, contrary to the claimed
three-way enum. -/
theorem claim4_counterexample :
    (change_product_name_for_handle "@x" "A" [⟨"A", "@x", none⟩]).1 = false ∧
    (change_product_name_for_handle "@x" "A" ([] : WinnerStore)).1 = false := by
  constructor
  · rfl
  · rfl


/-- Claim C4 (amended): `change_product_name_for_handle` returns only two
outcomes.  It returns `False` performing no mutation both when
`(newProduct, handle)` already exists and when the handle has no record; it
returns `True` otherwise, re-keying exactly the rows that match the handle
case-insensitively: same row count, every matching row now carries the new
product name, and every non-matching row is kept as it was. -/
theorem claim4_amended (handle new_product_name : String) (s : WinnerStore) :
    (conflictExists handle new_product_name s = true →
      change_product_name_for_handle handle new_product_name s = (false, s)) ∧
    (conflictExists handle new_product_name s = false →
      handleHasRows handle s = false →
      change_product_name_for_handle handle new_product_name s = (false, s)) ∧
    (conflictExists handle new_product_name s = false →
      handleHasRows handle s = true →
      (change_product_name_for_handle handle new_product_name s).1 = true ∧
      (change_product_name_for_handle handle new_product_name s).2.length = s.length ∧
      (∀ r ∈ (change_product_name_for_handle handle new_product_name s).2,
        lowerEq r.handle (atPrefixed handle) = true → r.product_name = new_product_name) ∧
      (∀ r ∈ s, lowerEq r.handle (atPrefixed handle) = false →
        r ∈ (change_product_name_for_handle handle new_product_name s).2)) := by
  simp only [change_product_name_for_handle, conflictExists, handleHasRows, atPrefixed]
  refine ⟨?_, ?_, ?_⟩
  · intro hc
    rw [hc]
    rfl
  · intro hc hn
    rw [hc]
    have hall : ∀ r ∈ s,
        lowerEq r.handle (if pyStartsWithChar handle '@' then handle else "@" ++ handle) = false := by
      intro r hr
      simpa using (List.any_eq_false.mp hn) r hr
    have hfil : s.filter
        (fun r => lowerEq r.handle (if pyStartsWithChar handle '@' then handle else "@" ++ handle)) = [] :=
      List.filter_eq_nil_iff.mpr (by intro a ha; simp [hall a ha])
    have hmap : s.map (fun r =>
        if lowerEq r.handle (if pyStartsWithChar handle '@' then handle else "@" ++ handle) then
          { r with product_name := new_product_name } else r) = s := by
      conv_rhs => rw [← List.map_id s]
      refine List.map_congr_left ?_
      intro a ha
      rw [hall a ha]
      simp
    simp [hfil, hmap]
  · intro hc hx
    rw [hc]
    obtain ⟨w, hw, hpw⟩ := List.any_eq_true.mp hx
    have hwf : w ∈ s.filter
        (fun r => lowerEq r.handle (if pyStartsWithChar handle '@' then handle else "@" ++ handle)) :=
      List.mem_filter.mpr ⟨hw, hpw⟩
    have hpos : (s.filter
        (fun r => lowerEq r.handle (if pyStartsWithChar handle '@' then handle else "@" ++ handle))).length ≠ 0 := by
      have := List.length_pos.mpr (List.ne_nil_of_mem hwf)
      omega
    refine ⟨by simp [hpos], by simp, ?_, ?_⟩
    · intro r hr hmatch
      simp only [Bool.false_eq_true, if_false, List.mem_map] at hr
      obtain ⟨a, ha, hfa⟩ := hr
      by_cases hla : lowerEq a.handle (if pyStartsWithChar handle '@' then handle else "@" ++ handle) = true
      · rw [← hfa]
        simp [hla]
      · rw [Bool.not_eq_true] at hla
        rw [← hfa] at hmatch
        rw [hla] at hmatch
        simp at hmatch
        rw [hla] at hmatch
        simp at hmatch
    · intro r hr hnm
      simp only [Bool.false_eq_true, if_false]
      refine List.mem_map.mpr ⟨r, hr, ?_⟩
      rw [hnm]
      simp

/-- Witness for `claim4_amended`: renaming `"@X"` (case-insensitive match of
the stored `"@x"`) to `"C"` on a one-record store is the ok case. -/
theorem claim4_witness :
    conflictExists "@X" "C" [⟨"A", "@x", none⟩] = false ∧
    handleHasRows "@X" [⟨"A", "@x", none⟩] = true ∧
    (change_product_name_for_handle "@X" "C" [⟨"A", "@x", none⟩]).1 = true :=
  ⟨by decide, by decide,
   ((claim4_amended "@X" "C" [⟨"A", "@x", none⟩]).2.2 (by decide) (by decide)).1⟩

/-! ## Claims C5/C6 -/

/-- A minimal concrete bot state: bot on, single admin id 1, empty tables. -/
def stBase : BotState :=
  { winners := [], lotteries := [], participants := [], admin_ids := [1],
    env_admin_ids := [], bot_active := true, admin_config := [],
    pending_phone_users := [], admin_states := [] }

/-- Claim C5 (counterexample): a non-admin (id 42) invoking `/lottery` does
get a reply — the admin-only warning — so not every admin command fails
silently for non-admins. -/
theorem claim5_counterexample :
    lottery_start_cmd 42 10 "group" [] 1 2 "12:00" stBase =
      some (["⚠️ 이 명령어는 관리자만 사용할 수 있습니다."], stBase) ∧
    (["⚠️ 이 명령어는 관리자만 사용할 수 있습니다."] : List String) ≠ [] := by
  constructor
  · rfl
  · decide

/-- Claim C5 (amended): a non-admin invoking `/delete_winner` gets no reply,
no conversation state and no store mutation; a non-admin invoking `/lottery`
gets the admin-only warning reply but likewise no state and no mutation. -/
theorem claim5_amended (uid chat_id : Int) (chat_type : String) (args : List String)
    (message_id sent_message_id : Int) (end_time_str : String) (st : BotState)
    (hna : is_admin st uid = false) :
    delete_winner_cmd uid st = ([], st) ∧
    lottery_start_cmd uid chat_id chat_type args message_id sent_message_id end_time_str st =
      some (["⚠️ 이 명령어는 관리자만 사용할 수 있습니다."], st) := by
  constructor
  · unfold delete_winner_cmd
    rw [hna]
    rfl
  · unfold lottery_start_cmd
    rw [hna]
    rfl

/-- Witness for `claim5_amended` at the non-admin id 42 on `stBase`. -/
theorem claim5_witness :
    is_admin stBase 42 = false ∧
    delete_winner_cmd 42 stBase = ([], stBase) :=
  ⟨by decide, (claim5_amended 42 10 "group" [] 1 2 "12:00" stBase (by decide)).1⟩

/-- The add-winner conversation state sitting in the `handles` step with
product `"P"` already captured. -/
def addWinnerHandlesState : AdminState :=
  { stype := "add_winner", step := "handles", product_name := some "P",
    handle := none, new_product_name := none, groups := [] }

/-- Claim C6 (counterexample): in the handles step a plain handle line
(`"@alice"`, no `/end` yet) already mutates the winner store — the batch is
NOT held back until `/end`. -/
theorem claim6_counterexample :
    (text_handler 1 "@alice" { stBase with admin_states := [(1, addWinnerHandlesState)] }).2.winners =
      [⟨"P", "@alice", none⟩] ∧
    ([⟨"P", "@alice", none⟩] : WinnerStore) ≠
      ({ stBase with admin_states := [(1, addWinnerHandlesState)] }).winners := by
  constructor
  · rfl
  · decide

/-- Claim C6 (amended): in the add-winner handles step every free-text
message is committed immediately — its stripped non-empty lines go through
`add_winners` at once while the conversation state stays put — and the
literal `/end` merely clears the state and commits nothing (the store is
whatever earlier messages already made it). -/
theorem claim6_amended (uid : Int) (raw_text : String) (st : BotState) (stt : AdminState)
    (p : String)
    (hb : is_user_blocked st uid = false)
    (hp : assocGet uid st.pending_phone_users = none)
    (hs : assocGet uid st.admin_states = some stt)
    (hty : stt.stype = "add_winner") (hstep : stt.step = "handles")
    (hprod : stt.product_name = some p) :
    (pyStrip raw_text = "/end" →
      text_handler uid raw_text st =
        (["등록을 완료했습니다."], { st with admin_states := assocPop uid st.admin_states })) ∧
    (pyStrip raw_text ≠ "/end" →
      (text_handler uid raw_text st).2.winners =
        add_winners p (splitlinesStripped (pyStrip raw_text)) st.winners ∧
      (text_handler uid raw_text st).2.admin_states = st.admin_states) := by
  constructor
  · intro hend
    simp [text_handler, hb, hp, hs, hty, hstep, hend]
  · intro hend
    simp [text_handler, hb, hp, hs, hty, hstep, hprod, hend]

/-- Witness for `claim6_amended`: user 1 sends `"@bob"` in the handles
step. -/
theorem claim6_witness :
    pyStrip "@bob" ≠ "/end" ∧
    (text_handler 1 "@bob" { stBase with admin_states := [(1, addWinnerHandlesState)] }).2.winners =
      add_winners "P" (splitlinesStripped (pyStrip "@bob"))
        ({ stBase with admin_states := [(1, addWinnerHandlesState)] }).winners :=
  ⟨by decide,
   ((claim6_amended 1 "@bob" { stBase with admin_states := [(1, addWinnerHandlesState)] }
      addWinnerHandlesState "P" (by decide) (by decide) (by decide) (by decide) (by decide)
      (by decide)).2 (by decide)).1⟩

/-- Claim C7 (confirmed): the phone validator accepts `"010-1234-5678"` and
rejects `"01012345678"`, `"010-12345-6789"` and `"010-1234-567"`. -/
theorem claim7_phone_validation :
    is_valid_phone "010-1234-5678" = true ∧
    is_valid_phone "01012345678" = false ∧
    is_valid_phone "010-12345-6789" = false ∧
    is_valid_phone "010-1234-567" = false := by
  refine ⟨rfl, rfl, rfl, rfl⟩

/-! ## Claim C8 -/

/-- Claim C8 (confirmed): with an ACTIVE session and zero participants,
`/lottery_end` ends the session (row set to ENDED, participants cleared) with
an empty winner list; with participants present it draws exactly
`min(requestedCount, participantCount)` winners, all of them participants,
without replacement (no duplicates when the participant rows are distinct),
and likewise ends the session. -/
theorem claim8_end_raffle (uid chat_id : Int) (chat_type : String) (args : List String)
    (pick : Nat → Nat) (st : BotState) (lot : LotteryRow)
    (ha : is_admin st uid = true)
    (hct : chat_type = "group" ∨ chat_type = "supergroup")
    (hl : get_current_lottery chat_id st.lotteries = some lot) :
    (get_participants chat_id st.participants = [] →
      lottery_end_cmd uid chat_id chat_type args pick st =
        (["😥 참가자가 없습니다. 추첨을 종료합니다."], [],
         { st with lotteries := end_lottery chat_id st.lotteries,
                   participants := clear_participants chat_id st.participants })) ∧
    (get_participants chat_id st.participants ≠ [] →
      (lottery_end_cmd uid chat_id chat_type args pick st).2.1.length =
        min (parseArgNat args[0]? lot.winner_count)
          (get_participants chat_id st.participants).length ∧
      (∀ w ∈ (lottery_end_cmd uid chat_id chat_type args pick st).2.1,
        w ∈ get_participants chat_id st.participants) ∧
      ((get_participants chat_id st.participants).Nodup →
        (lottery_end_cmd uid chat_id chat_type args pick st).2.1.Nodup) ∧
      (lottery_end_cmd uid chat_id chat_type args pick st).2.2 =
        { st with lotteries := end_lottery chat_id st.lotteries,
                  participants := clear_participants chat_id st.participants }) := by
  have hgate : (!is_admin st uid || !(chat_type = "group" || chat_type = "supergroup")) = false := by
    rcases hct with h | h <;> simp [ha, h]
  constructor
  · intro hemp
    have hie : (get_participants chat_id st.participants).isEmpty = true := by
      simp [hemp]
    simp only [lottery_end_cmd, hgate, hl, hie]
    simp
  · intro hne
    have hie : (get_participants chat_id st.participants).isEmpty = false := by
      simp [List.isEmpty_iff, hne]
    have hwcmin : (if parseArgNat args[0]? lot.winner_count >
          (get_participants chat_id st.participants).length then
        (get_participants chat_id st.participants).length
      else parseArgNat args[0]? lot.winner_count) =
        min (parseArgNat args[0]? lot.winner_count)
          (get_participants chat_id st.participants).length := by
      rw [Nat.min_def]
      by_cases hcase : parseArgNat args[0]? lot.winner_count >
          (get_participants chat_id st.participants).length
      · rw [if_pos hcase, if_neg (by omega)]
      · rw [if_neg hcase, if_pos (by omega)]
    have hle : min (parseArgNat args[0]? lot.winner_count)
        (get_participants chat_id st.participants).length ≤
        (get_participants chat_id st.participants).length := Nat.min_le_right _ _
    refine ⟨?_, ?_, ?_, ?_⟩
    · simp only [lottery_end_cmd, hgate, hl, hie]
      simp only [Bool.false_eq_true, if_false]
      rw [hwcmin]
      exact length_sampleAux pick _ 0 _ hle
    · intro w hw
      simp only [lottery_end_cmd, hgate, hl, hie] at hw
      simp only [Bool.false_eq_true, if_false] at hw
      exact mem_sampleAux pick _ 0 _ w hw
    · intro hnd
      simp only [lottery_end_cmd, hgate, hl, hie]
      simp only [Bool.false_eq_true, if_false]
      exact nodup_sampleAux pick _ 0 _ hnd
    · simp only [lottery_end_cmd, hgate, hl, hie]
      simp only [Bool.false_eq_true, if_false]

/-- The ACTIVE lottery row used by the concrete claim-8 witness state. -/
def lotRow : LotteryRow :=
  { chat_id := 10, duration_minutes := 0, winner_count := 2,
    required_groups := "@g", state := "ACTIVE", message_id := 3 }

/-- Concrete state with an ACTIVE lottery in chat 10 and three joined
participants. -/
def stLottery : BotState :=
  { stBase with lotteries := [lotRow],
                participants := [⟨10, 5, "alice"⟩, ⟨10, 6, "bob"⟩, ⟨10, 7, "eve"⟩] }

/-- Witness for `claim8_end_raffle`: admin 1 ends the chat-10 raffle asking
for 5 winners among 3 participants. -/
theorem claim8_witness :
    get_participants 10 stLottery.participants ≠ [] ∧
    (lottery_end_cmd 1 10 "group" ["5"] (fun _ => 0) stLottery).2.1.length =
      min (parseArgNat (["5"] : List String)[0]? lotRow.winner_count)
        (get_participants 10 stLottery.participants).length :=
  ⟨by decide,
   ((claim8_end_raffle 1 10 "group" ["5"] (fun _ => 0) stLottery lotRow (by decide)
      (Or.inl rfl) (by decide)).2 (by decide)).1⟩

/-! ## Claim C9 -/

/-- Claim C9 (confirmed): for a qualified user with a username and an ACTIVE
raffle, the first `/join` succeeds and inserts the `(chat, user)` row; the
immediately repeated `/join` is answered with the dedicated duplicate reply —
a different message than the disqualification reply — and leaves the
participant table (hence the participant count) unchanged. -/
theorem claim9_duplicate_join (uid chat_id : Int) (u : String) (chat_type : String)
    (memberOf : String → Bool) (st : BotState) (lot : LotteryRow)
    (hb : is_user_blocked st uid = false)
    (hct : chat_type = "group" ∨ chat_type = "supergroup")
    (hl : get_current_lottery chat_id st.lotteries = some lot)
    (hu : u ≠ "")
    (hq : ∀ g ∈ ((pySplitChar ',' lot.required_groups).map (fun g => pyStrip g)).filter
        (fun g => g ≠ ""), memberOf g = true)
    (hnew : st.participants.any (fun r => r.chat_id = chat_id && r.user_id = uid) = false) :
    lottery_join_cmd uid (some u) chat_id chat_type memberOf st =
      (["🎉 @" ++ u ++ " 님, 추첨에 참가했습니다!"],
       { st with participants := st.participants ++ [⟨chat_id, uid, u⟩] }) ∧
    lottery_join_cmd uid (some u) chat_id chat_type memberOf
        { st with participants := st.participants ++ [⟨chat_id, uid, u⟩] } =
      (["⚠️ 이미 추첨에 참가했습니다."],
       { st with participants := st.participants ++ [⟨chat_id, uid, u⟩] }) ∧
    ("⚠️ 이미 추첨에 참가했습니다." : String) ≠
      "⚠️ 참여 조건 미달: 모든 필수 그룹에 가입해야 참여할 수 있습니다. 먼저 가입해주세요." := by
  have hmf : ∀ x ∈ pySplitChar ',' lot.required_groups,
      ¬pyStrip x = "" → memberOf (pyStrip x) = true := by
    intro x hx hne
    exact hq (pyStrip x) (List.mem_filter.mpr ⟨List.mem_map_of_mem _ hx, by simpa using hne⟩)
  have hqual : (((pySplitChar ',' lot.required_groups).map (fun g => pyStrip g)).filter
      (fun g => g ≠ "")).all memberOf = true :=
    List.all_eq_true.mpr (fun g hg => hq g hg)
  have hdup : (st.participants ++ [(⟨chat_id, uid, u⟩ : ParticipantRow)]).any
      (fun r => r.chat_id = chat_id && r.user_id = uid) = true := by
    rw [List.any_append]
    simp
  have hb' : is_user_blocked
      { st with participants := st.participants ++ [⟨chat_id, uid, u⟩] } uid = false := hb
  have hl' : get_current_lottery chat_id
      ({ st with participants := st.participants ++ [⟨chat_id, uid, u⟩] } : BotState).lotteries =
      some lot := hl
  rcases hct with hctg | hctg <;> subst hctg <;>
    refine ⟨?_, ?_, by decide⟩ <;>
    simp [lottery_join_cmd, add_participant, hb, hb', hl, hl', hu, hmf, hqual, hdup, hnew] <;>
    (intro x hx hne
     first
     | exact hmf x hx hne
     | (intro hmf2; exact absurd (hmf x hx hne) (by simp [hmf2])))

/-- Concrete state for the claim-9 witness: ACTIVE lottery in chat 10, no
participants yet. -/
def stJoin : BotState := { stBase with lotteries := [lotRow] }

/-- Witness for `claim9_duplicate_join`: user 5 with username `alice` joins
chat 10 (membership oracle always true). -/
theorem claim9_witness :
    lottery_join_cmd 5 (some "alice") 10 "group" (fun _ => true) stJoin =
      (["🎉 @" ++ "alice" ++ " 님, 추첨에 참가했습니다!"],
       { stJoin with participants := stJoin.participants ++ [⟨10, 5, "alice"⟩] }) :=
  (claim9_duplicate_join 5 10 "alice" "group" (fun _ => true) stJoin lotRow
    (by decide) (Or.inl rfl) (by decide) (by decide) (by decide) (by decide)).1

/-! ## Claim C10 -/

theorem assocGet_assocPop {κ α : Type} [DecidableEq κ] (k : κ) (m : List (κ × α)) :
    assocGet k (assocPop k m) = none := by
  unfold assocGet assocPop
  induction m with
  | nil => rfl
  | cons e rest ih =>
    by_cases he : e.1 = k <;> simp [List.filter_cons, List.find?_cons, he, ih]

/-- Claim C10 (confirmed): while a user holds a pending-phone marker, the
marker branch of `text_handler` runs before the conversation-state dispatch:
whatever the text, the `admin_states` table is left untouched, and the marker
itself is removed exactly when the user is not blocked and the text is a
format-valid phone number (the successful submission) — otherwise it
stays. -/
theorem claim10_pending_phone_priority (uid : Int) (raw_text : String) (st : BotState)
    (h : String) (hp : assocGet uid st.pending_phone_users = some h) :
    (text_handler uid raw_text st).2.admin_states = st.admin_states ∧
    assocGet uid (text_handler uid raw_text st).2.pending_phone_users =
      (if is_user_blocked st uid = false ∧ is_valid_phone (pyStrip raw_text) = true then none
       else some h) := by
  by_cases hb : is_user_blocked st uid = true
  · simp [text_handler, hb, hp]
  · rw [Bool.not_eq_true] at hb
    by_cases hv : is_valid_phone (pyStrip raw_text) = true
    · simp [text_handler, hb, hp, hv, assocGet_assocPop]
    · rw [Bool.not_eq_true] at hv
      simp [text_handler, hb, hp, hv]

/-- Concrete state for the claim-10 witness: user 1 awaits a phone for
`"@alice"`. -/
def stPending : BotState := { stBase with pending_phone_users := [(1, "@alice")] }

/-- Witness for `claim10_pending_phone_priority`: user 1 sends non-phone
text. -/
theorem claim10_witness :
    assocGet 1 stPending.pending_phone_users = some "@alice" ∧
    (text_handler 1 "hello" stPending).2.admin_states = stPending.admin_states :=
  ⟨by decide, (claim10_pending_phone_priority 1 "hello" stPending "@alice" (by decide)).1⟩
